import Mathlib

/-!
# Verification of tzlocal's Unix timezone resolution (`tzlocal/unix.py`)

This file gives a shallow embedding of the detection algorithm of
`tzlocal/unix.py`: the TZ environment override, the Android/Termux property
probe, the distribution config-file scanner, the `/etc/localtime` symlink
scan, the reconciliation of candidates, the raw-`localtime` / UTC fallback,
and the process-wide cache (`get_localzone` / `reload_localzone`).

External effects are captured by an explicit `Env` record (environment
variable, filesystem contents, the zoneinfo database as a membership test,
the offset-verification collaborator).  Fallible Python code becomes
`Except PyError`; the `warnings.warn` call is modelled as a `Bool` flag in
the result.  All definitions are structural recursions so that concrete
inputs evaluate inside the kernel (`rfl`/`decide`).

String helpers mirror the exact Python primitives used by the source
(`str.split(" ", 1)`, `str.splitlines()`, `file.readlines()`, `str.strip()`,
`str.replace`, `re.match` of the two clock-file patterns, `os.path.join`,
`os.path.isabs`).  They model `\n`-separated text, which covers the POSIX
text files involved.
-/

/-- Python whitespace test: the characters matched by `str.strip()` and by
the regex class `\s` on the ASCII config files involved. -/
def isPySpace (c : Char) : Bool :=
  c = ' ' || c = '\t' || c = '\n' || c = '\r' || c = '\x0b' || c = '\x0c'

/-- Split a character list at every occurrence of `sep`
(Python `str.split(sep)` for a one-character separator). -/
def splitOnChar (sep : Char) : List Char → List (List Char)
  | [] => [[]]
  | c :: rest =>
    match splitOnChar sep rest with
    | [] => [[c]]
    | h :: t => if c = sep then [] :: h :: t else (c :: h) :: t

/-- Last element of a list, if any (used to state "last line wins"). -/
def lastOf : List String → Option String
  | [] => none
  | x :: rest => some ((lastOf rest).getD x)

/-- Python `str.splitlines()` on `\n`-separated text: the trailing line
terminator produces no extra empty line. -/
def splitlines (s : String) : List String :=
  let parts := (splitOnChar '\n' s.data).map String.mk
  if lastOf parts = some "" then parts.dropLast else parts

/-- Helper for `readlines`: split keeping the `\n` terminators. -/
def readlinesAux (acc : List Char) : List Char → List String
  | [] => if acc.isEmpty then [] else [String.mk acc.reverse]
  | c :: rest =>
    if c = '\n' then String.mk ((c :: acc).reverse) :: readlinesAux [] rest
    else readlinesAux (c :: acc) rest

/-- Python `file.readlines()` on `\n`-separated text: each line keeps its
terminator, a final unterminated line is kept as-is. -/
def readlines (s : String) : List String :=
  readlinesAux [] s.data

/-- Python `str.strip()`. -/
def pyStrip (s : String) : String :=
  String.mk (((s.data.dropWhile isPySpace).reverse.dropWhile isPySpace).reverse)

/-- Strip an initial occurrence of `pat`, returning the remainder. -/
def dropPre : List Char → List Char → Option (List Char)
  | [], s => some s
  | _ :: _, [] => none
  | p :: ps, c :: cs => if c = p then dropPre ps cs else none

/-- Fuelled worker for `pyReplace`.  Each step consumes at least one
character of the subject and one unit of fuel, so fuel equal to the
subject's length makes this total Python `str.replace` for a non-empty
pattern, while keeping the definition structural (kernel-computable). -/
def replaceFuel (pat rep : List Char) : Nat → List Char → List Char
  | _, [] => []
  | 0, s => s
  | fuel + 1, c :: rest =>
    match dropPre pat (c :: rest) with
    | some rem => rep ++ replaceFuel pat rep fuel rem
    | none => c :: replaceFuel pat rep fuel rest

/-- Python `s.replace(pat, rep)` (non-overlapping, left to right). -/
def pyReplace (s pat rep : String) : String :=
  String.mk (replaceFuel pat.data rep.data s.data.length s.data)

/-- Python `s.startswith(p)` (also `os.path.isabs` when `p = "/"`). -/
def strStartsWith (s p : String) : Bool :=
  p.data.isPrefixOf s.data

/-- Python `s.endswith(p)`. -/
def strEndsWith (s p : String) : Bool :=
  p.data.reverse.isPrefixOf s.data.reverse

/-- POSIX `os.path.join` for the two-argument form used by the source. -/
def osPathJoin (a b : String) : String :=
  if strStartsWith b "/" then b
  else if a = "" then a ++ b
  else if strEndsWith a "/" then a ++ b
  else a ++ "/" ++ b

/-- The result of resolution: a database-named zone (`ZoneInfo(key)`), a
zone loaded from a raw TZif file (`ZoneInfo.from_file`, name fixed to the
sentinel `"local"`), or `datetime.timezone.utc`. -/
inductive TZResult where
  | named (key : String)
  | fromFile (path : String)
  | utc
deriving DecidableEq

/-- The Python exceptions that can escape the resolver: a
`ZoneInfoNotFoundError` carrying its message (also used for the conflict
error, which is raised as `ZoneInfoNotFoundError`), the `AttributeError`
from dereferencing a failed `re.search`, the `IndexError` from `tzenv[0]`
on an empty string, and the `ValueError` of the offset check. -/
inductive PyError where
  | zoneInfoNotFound (msg : String)
  | attributeError
  | indexError
  | valueError (msg : String)
deriving DecidableEq

/-- All external state the algorithm consults: the `TZ` variable, the
filesystem (existence, readable text content where `none` stands for the
caught `IOError`/`UnicodeDecodeError`, symlink test, `os.path.realpath`),
the zoneinfo database as a membership test (`zdb key = true` iff
`ZoneInfo(key)` succeeds), the stripped/decoded `getprop` output, and the
offset-verification collaborator. -/
structure Env where
  tz : Option String
  pathExists : String → Bool
  textFile : String → Option String
  isLink : String → Bool
  realPath : String → String
  zdb : String → Bool
  getpropOutput : String
  offsetOk : String → Bool

/-- The literal message of the descriptive error raised by `_tz_from_env`
(the source never interpolates the `%s`). -/
def notSupportedMsg : String :=
  "tzlocal() does not support non-zoneinfo timezones like %s. \nPlease use a timezone in the form of Continent/City"

/-- Modelled from the spec: the external database collaborator
("resolve zone-name string to timezone object, fails with NotFound if
unknown"); the message of its failure is not part of this repository's
sources, only that a NotFound error propagates. -/
def zoneNotFoundMsg (key : String) : String :=
  "No time zone found with key " ++ key

/-- Modelled from the spec: `tzlocal.utils.assert_tz_offset` is not under
the sources provided, only its interface is specified ("verify a timezone
object's current offset against the live system clock, warn or fail if
mismatched").  We model the failing case as a `ValueError` with this
message. -/
def assertOffsetFailMsg : String :=
  "Timezone offset does not match system offset"

/-- Leading-colon stripping of the TZ value (`if tzenv[0] == ":"`). -/
def stripColon (tzenv : String) : String :=
  if strStartsWith tzenv ":" then String.mk (tzenv.data.drop 1) else tzenv

/-- `_tz_from_env` (unix.py lines 17-35): strip a leading colon; an
absolute existing path is loaded as a raw TZif file; otherwise resolve as
a database zone, re-raising lookup failure with the descriptive message.
`tzenv[0]` on the empty string raises `IndexError`. -/
def _tz_from_env (env : Env) (tzenv : String) : Except PyError TZResult :=
  if tzenv = "" then .error .indexError
  else
    let t := stripColon tzenv
    if strStartsWith t "/" && env.pathExists t then .ok (.fromFile t)
    else if env.zdb t then .ok (.named t)
    else .error (.zoneInfoNotFound notSupportedMsg)

/-- `_try_tz_from_env` (unix.py lines 38-44): absent or empty `TZ` yields
nothing; a `ZoneInfoNotFoundError` from `_tz_from_env` is caught and
swallowed (yields nothing); any other exception propagates. -/
def _try_tz_from_env (env : Env) : Except PyError (Option TZResult) :=
  match env.tz with
  | none => .ok none
  | some tzenv =>
    if tzenv = "" then .ok none
    else
      match _tz_from_env env tzenv with
      | .ok tz => .ok (some tz)
      | .error (.zoneInfoNotFound _) => .ok none
      | .error e => .error e

/-- Python dict assignment `found_configs[tzpath] = v` on an
insertion-ordered association list: update in place if the key is present,
else append. -/
def updateConfig : List (String × String) → String → String → List (String × String)
  | [], k, v => [(k, v)]
  | p :: rest, k, v =>
    if p.1 = k then (p.1, v) :: rest else p :: updateConfig rest k v

/-- Dict lookup `found_configs.get(tzpath)`. -/
def lookupConfig : List (String × String) → String → Option String
  | [], _ => none
  | p :: rest, k => if p.1 = k then some p.2 else lookupConfig rest k

/-- One line of a plain-name config file (unix.py lines 90-94): cut at the
first space (`split(" ", 1)`), then at the first `#`. -/
def cutLine (line : String) : String :=
  let cs := line.data
  let cs := if cs.contains ' ' then cs.takeWhile (fun c => c != ' ') else cs
  let cs := if cs.contains '#' then cs.takeWhile (fun c => c != '#') else cs
  String.mk cs

/-- Body of the per-line loop for plain-name files (unix.py lines 89-98):
skip lines that became empty, otherwise overwrite the file's entry with
the line's candidate, spaces replaced by underscores. -/
def scanPlainLine (tzpath : String) (cfgs : List (String × String)) (line : String) :
    List (String × String) :=
  if cutLine line = "" then cfgs
  else updateConfig cfgs tzpath (pyReplace (cutLine line) " " "_")

/-- Scan of one plain-name config file (unix.py lines 79-102): unreadable
or undecodable files contribute nothing; a file whose stripped content is
empty is skipped; otherwise every line is processed in order. -/
def scanPlainFile (env : Env) (root : String) (cfgs : List (String × String))
    (configfile : String) : List (String × String) :=
  let tzpath := osPathJoin root configfile
  match env.textFile tzpath with
  | none => cfgs
  | some data =>
    if pyStrip data = "" then cfgs
    else (splitlines data).foldl (scanPlainLine tzpath) cfgs

/-- The plain-name file pass over `etc/timezone` and `var/db/zoneinfo`. -/
def scanPlainFiles (env : Env) (root : String) : List (String × String) :=
  ["etc/timezone", "var/db/zoneinfo"].foldl (scanPlainFile env root) []

/-- `re.match` of `\s*KEY\s*=\s*"` against the start of a line, returning
the remainder of the line after the match (`line[match.end():]`). -/
def matchClockKey (key : String) (line : String) : Option String :=
  let cs := line.data.dropWhile isPySpace
  match dropPre key.data cs with
  | none => none
  | some r1 =>
    match r1.dropWhile isPySpace with
    | '=' :: r3 =>
      match r3.dropWhile isPySpace with
      | '"' :: r5 => some (String.mk r5)
      | _ => none
    | _ => none

/-- Body of the per-line loop for key=value clock files (unix.py lines
119-131): try the `ZONE="` pattern, then the `TIMEZONE="` pattern; on a
match, the candidate is the text up to the next `"`.  When no closing
quote exists, `end_re.search(line)` is `None` and dereferencing it raises
`AttributeError`, which the surrounding `except (IOError,
UnicodeDecodeError)` does not catch. -/
def scanClockLine (tzpath : String) (cfgs : List (String × String)) (line : String) :
    Except PyError (List (String × String)) :=
  let m := match matchClockKey "ZONE" line with
           | some r => some r
           | none => matchClockKey "TIMEZONE" line
  match m with
  | none => .ok cfgs
  | some rest =>
    if rest.data.contains '"' then
      .ok (updateConfig cfgs tzpath
        (pyReplace (String.mk (rest.data.takeWhile (fun c => c != '"'))) " " "_"))
    else .error .attributeError

/-- Scan of one key=value clock file (unix.py lines 113-135). -/
def scanClockFile (env : Env) (root : String) (cfgs : List (String × String))
    (filename : String) : Except PyError (List (String × String)) :=
  let tzpath := osPathJoin root filename
  match env.textFile tzpath with
  | none => .ok cfgs
  | some data => (readlines data).foldlM (scanClockLine tzpath) cfgs

/-- The clock-file pass over `etc/sysconfig/clock` and `etc/conf.d/clock`. -/
def scanClockFiles (env : Env) (root : String) (cfgs : List (String × String)) :
    Except PyError (List (String × String)) :=
  ["etc/sysconfig/clock", "etc/conf.d/clock"].foldlM (scanClockFile env root) cfgs

/-- Join path segments back with `/` (inverse of splitting on `/`). -/
def joinSlash : List String → String
  | [] => ""
  | [s] => s
  | s :: rest => s ++ "/" ++ joinSlash rest

/-- The successive values taken by `etctz` in the symlink while-loop
(unix.py lines 142-150): after each `/` of the real path, the remaining
suffix, from the longest one down to the last segment. -/
def symlinkSuffixes : List String → List String
  | [] => []
  | [_] => []
  | _ :: b :: t => joinSlash (b :: t) :: symlinkSuffixes (b :: t)

/-- The symlink while-loop (unix.py lines 142-150), phrased as structural
recursion on the `/`-separated segments of the real path: `etctz =
etctz[start:]` with `start` just past the first `/` is exactly dropping
the first segment.  Every suffix that the database resolves overwrites the
single entry keyed by the real path; lookup failures are ignored. -/
def symlinkLoop (zdb : String → Bool) (key : String) :
    List String → List (String × String) → List (String × String)
  | [], cfgs => cfgs
  | [_], cfgs => cfgs
  | _ :: b :: t, cfgs =>
    symlinkLoop zdb key (b :: t)
      (if zdb (joinSlash (b :: t)) then
        updateConfig cfgs key (pyReplace (joinSlash (b :: t)) " " "_")
      else cfgs)

/-- The systemd symlink scan (unix.py lines 139-150): only when
`etc/localtime` exists and is a symlink; candidates are keyed by the
resolved real path. -/
def symlinkScan (env : Env) (root : String) (cfgs : List (String × String)) :
    List (String × String) :=
  let tzpath := osPathJoin root "etc/localtime"
  if env.pathExists tzpath && env.isLink tzpath then
    let rp := env.realPath tzpath
    symlinkLoop env.zdb rp ((splitOnChar '/' rp.data).map String.mk) cfgs
  else cfgs

/-- The comparison-only synonym folding (unix.py lines 157-167):
`replace('Etc/', '')`, `replace('UTC', 'GMT')`, then the specific strings
`GMT0`, `GMT+0`, `GMT-0` become `GMT`. -/
def normalize_tzname (tzname : String) : String :=
  let t := pyReplace tzname "Etc/" ""
  let t := pyReplace t "UTC" "GMT"
  if t = "GMT0" || t = "GMT+0" || t = "GMT-0" then "GMT" else t

/-- `len(set(vals)) == 1` for a non-empty `vals`: all elements equal the
first. -/
def allEqual : List String → Bool
  | [] => true
  | x :: xs => xs.all (fun y => y == x)

/-- The per-entry lines of the conflict message (unix.py lines 172-173). -/
def configLines : List (String × String) → String
  | [] => ""
  | p :: rest => p.1 ++ ": " ++ p.2 ++ "\n" ++ configLines rest

/-- The full conflict message (unix.py lines 171-174). -/
def conflictMessage (cfgs : List (String × String)) : String :=
  "Multiple conflicting time zone configurations found:\n"
    ++ configLines cfgs
    ++ "Fix the configuration, or set the time zone in a TZ environment variable.\n"

/-- The raw-`localtime` / UTC terminal fallback (unix.py lines 186-195):
the first existing of the two fixed paths is loaded as an unnamed zone;
otherwise warn (second component `true`) and return `timezone.utc`. -/
def fallbackLocaltime (env : Env) (root : String) : TZResult × Bool :=
  let p1 := osPathJoin root "etc/localtime"
  if env.pathExists p1 then (.fromFile p1, false)
  else
    let p2 := osPathJoin root "usr/local/etc/localtime"
    if env.pathExists p2 then (.fromFile p2, false)
    else (.utc, true)

/-- `_get_localzone` after the TZ override yielded nothing (unix.py lines
62-195): the Termux probe (whose `ZoneInfo` lookup failure is not caught),
the two scanner passes, the symlink scan, reconciliation, and the
fallback.  The source guards the conflict check with
`len(found_configs) > 1` and raises iff the normalized candidates are not
all equal, which is the single conjunctive condition below.  The Boolean
in the result records whether `warnings.warn` ran. -/
def localzone_after_env (env : Env) (root : String) : Except PyError (TZResult × Bool) :=
  if env.pathExists (osPathJoin root "system/bin/getprop") then
    if env.zdb env.getpropOutput then .ok (.named env.getpropOutput, false)
    else .error (.zoneInfoNotFound (zoneNotFoundMsg env.getpropOutput))
  else
    match scanClockFiles env root (scanPlainFiles env root) with
    | .error e => .error e
    | .ok cfgs1 =>
      match symlinkScan env root cfgs1 with
      | [] => .ok (fallbackLocaltime env root)
      | first :: restCfgs =>
        if 0 < restCfgs.length
            && !allEqual (((first :: restCfgs).map (fun p => normalize_tzname p.2))) then
          .error (.zoneInfoNotFound (conflictMessage (first :: restCfgs)))
        else if env.zdb first.2 then
          if root = "/" && !env.offsetOk first.2 then .error (.valueError assertOffsetFailMsg)
          else .ok (.named first.2, false)
        else .error (.zoneInfoNotFound (zoneNotFoundMsg first.2))

/-- `_get_localzone` (unix.py lines 47-195). -/
def _get_localzone (env : Env) (root : String) : Except PyError (TZResult × Bool) :=
  match _try_tz_from_env env with
  | .error e => .error e
  | .ok (some tz) => .ok (tz, false)
  | .ok none => localzone_after_env env root

/-- `get_localzone` (unix.py lines 198-204) with the process-wide
`_cache_tz` slot made an explicit state: returns the pair (outcome, new
cache).  A populated cache is returned untouched; an empty cache runs
`_get_localzone()` at the default root and stores a successful result; a
raised exception leaves the slot empty. -/
def get_localzone (env : Env) (cache : Option TZResult) :
    Except PyError TZResult × Option TZResult :=
  match cache with
  | some tz => (.ok tz, some tz)
  | none =>
    match _get_localzone env "/" with
    | .ok (tz, _) => (.ok tz, some tz)
    | .error e => (.error e, none)

/-- `reload_localzone` (unix.py lines 207-211): unconditionally re-run
`_get_localzone()`; the assignment to `_cache_tz` only happens when no
exception is raised, so a raised exception leaves the previous cache. -/
def reload_localzone (env : Env) (cache : Option TZResult) :
    Except PyError TZResult × Option TZResult :=
  match _get_localzone env "/" with
  | .ok (tz, _) => (.ok tz, some tz)
  | .error e => (.error e, cache)

/-! ## Concrete environments used as test inputs -/

/-- A state with nothing set at all: no `TZ`, an empty filesystem, an
empty database.  Base for the concrete environments below. -/
def emptyEnv : Env :=
  { tz := none
    pathExists := fun _ => false
    textFile := fun _ => none
    isLink := fun _ => false
    realPath := fun p => p
    zdb := fun _ => false
    getpropOutput := ""
    offsetOk := fun _ => true }

/-- `TZ` set to a string that is neither a path nor a database key, while
`etc/timezone` under the search root `/t` holds a resolvable name. -/
def env1C1 : Env :=
  { emptyEnv with
    tz := some "Foo/Bar"
    textFile := fun p => if p = "/t/etc/timezone" then some "America/New_York\n" else none
    zdb := fun s => s == "America/New_York" }

/-- `etc/timezone` holds a resolvable name and `etc/localtime` is a
symlink whose real path encodes a different resolvable name. -/
def env2C2 : Env :=
  { emptyEnv with
    textFile := fun p => if p = "/t/etc/timezone" then some "America/New_York\n" else none
    pathExists := fun p => p == "/t/etc/localtime"
    isLink := fun p => p == "/t/etc/localtime"
    realPath := fun p => if p == "/t/etc/localtime" then "/usr/share/zoneinfo/Etc/GMT" else p
    zdb := fun s => s == "America/New_York" || s == "Etc/GMT" || s == "GMT" }

/-- Only the `etc/localtime` symlink exists; its real path has two
trailing suffixes that resolve, `Etc/GMT` and `GMT`. -/
def env3C3 : Env :=
  { emptyEnv with
    pathExists := fun p => p == "/t/etc/localtime"
    isLink := fun p => p == "/t/etc/localtime"
    realPath := fun p => if p == "/t/etc/localtime" then "/usr/share/zoneinfo/Etc/GMT" else p
    zdb := fun s => s == "Etc/GMT" || s == "GMT" }

/-- The two plain-name config files disagree even after synonym folding. -/
def env4C4 : Env :=
  { emptyEnv with
    textFile := fun p =>
      if p = "/t/etc/timezone" then some "America/New_York\n"
      else if p = "/t/var/db/zoneinfo" then some "Europe/London\n" else none
    zdb := fun s => s == "America/New_York" || s == "Europe/London" }

/-- The two plain-name config files differ raw (`Etc/UTC` vs `GMT`) but
agree after synonym folding. -/
def env5C5 : Env :=
  { emptyEnv with
    textFile := fun p =>
      if p = "/t/etc/timezone" then some "Etc/UTC\n"
      else if p = "/t/var/db/zoneinfo" then some "GMT\n" else none
    zdb := fun s => s == "Etc/UTC" || s == "GMT" }

/-- `TZ` set to a valid database key, so the whole chain succeeds at the
default root through the environment override alone. -/
def env7C7 : Env :=
  { emptyEnv with
    tz := some "Europe/Amsterdam"
    zdb := fun s => s == "Europe/Amsterdam" }

/-- A plain-name file whose first line carries a host annotation, a
comment line, and a final plain line. -/
def c8data : String := "Europe/Paris badhost\n# comment\nAmerica/New_York\n"

/-- Environment serving `c8data` as `etc/timezone` under `/t`. -/
def env8C8 : Env :=
  { emptyEnv with
    textFile := fun p => if p = "/t/etc/timezone" then some c8data else none
    zdb := fun s => s == "America/New_York" }

/-- `etc/sysconfig/clock` contains a `ZONE="` line with no closing
double quote. -/
def env9C9 : Env :=
  { emptyEnv with
    textFile := fun p => if p = "/t/etc/sysconfig/clock" then some "ZONE=\"Asia/Tokyo\n" else none }

/-- Conflicting plain-name config files at the default root `/`, so the
cached accessors see a raised conflict error. -/
def env10C10 : Env :=
  { emptyEnv with
    textFile := fun p =>
      if p = "/etc/timezone" then some "America/New_York\n"
      else if p = "/var/db/zoneinfo" then some "Europe/London\n" else none
    zdb := fun s => s == "America/New_York" || s == "Europe/London" }

/-! ## Helper lemmas -/

theorem lookup_updateConfig_self (cfgs : List (String × String)) (k v : String) :
    lookupConfig (updateConfig cfgs k v) k = some v := by
  induction cfgs with
  | nil => simp [updateConfig, lookupConfig]
  | cons p rest ih =>
    by_cases h : p.1 = k
    · simp [updateConfig, lookupConfig, h]
    · simp [updateConfig, lookupConfig, h, ih]

theorem updateConfig_ne_nil (cfgs : List (String × String)) (k v : String) :
    updateConfig cfgs k v ≠ [] := by
  cases cfgs with
  | nil => simp [updateConfig]
  | cons p rest =>
    by_cases h : p.1 = k <;> simp [updateConfig, h]

theorem symlinkLoop_ne_nil (zdb : String → Bool) (key : String) :
    ∀ (segs : List String) (cfgs : List (String × String)),
      cfgs ≠ [] → symlinkLoop zdb key segs cfgs ≠ [] := by
  intro segs
  induction segs with
  | nil => intro cfgs h; simpa [symlinkLoop] using h
  | cons a rest ih =>
    intro cfgs h
    cases rest with
    | nil => simpa [symlinkLoop] using h
    | cons b t =>
      simp only [symlinkLoop]
      apply ih
      by_cases hz : zdb (joinSlash (b :: t)) <;>
        simp [hz, updateConfig_ne_nil, h]

theorem symlinkScan_ne_nil (env : Env) (root : String)
    (cfgs : List (String × String)) (h : cfgs ≠ []) :
    symlinkScan env root cfgs ≠ [] := by
  unfold symlinkScan
  by_cases hc : (env.pathExists (osPathJoin root "etc/localtime")
      && env.isLink (osPathJoin root "etc/localtime")) = true
  · simp only [hc, if_true]
    exact symlinkLoop_ne_nil _ _ _ _ h
  · simp only [hc]
    simpa using h

theorem lookup_foldl_scanPlainLine (tzpath : String) :
    ∀ (lines : List String) (cfgs : List (String × String)),
      lookupConfig (lines.foldl (scanPlainLine tzpath) cfgs) tzpath
        = (lastOf ((lines.map cutLine).filter (fun s => s != ""))).elim
            (lookupConfig cfgs tzpath) (fun v => some (pyReplace v " " "_")) := by
  intro lines
  induction lines with
  | nil => intro cfgs; simp [lastOf, Option.elim]
  | cons l ls ih =>
    intro cfgs
    simp only [List.foldl_cons, List.map_cons, List.filter_cons]
    by_cases h : cutLine l = ""
    · simp only [h]
      have : scanPlainLine tzpath cfgs l = cfgs := by simp [scanPlainLine, h]
      rw [this, ih]
      simp
    · have hb : ((cutLine l != "") = true) := by simpa using h
      simp only [hb, if_true]
      have : scanPlainLine tzpath cfgs l
          = updateConfig cfgs tzpath (pyReplace (cutLine l) " " "_") := by
        simp [scanPlainLine, h]
      rw [this, ih]
      cases hl : lastOf ((ls.map cutLine).filter (fun s => s != "")) with
      | none => simp [lastOf, hl, lookup_updateConfig_self]
      | some x => simp [lastOf, hl]

theorem lookup_symlinkLoop (zdb : String → Bool) (key : String) :
    ∀ (segs : List String) (cfgs : List (String × String)),
      lookupConfig (symlinkLoop zdb key segs cfgs) key
        = (lastOf ((symlinkSuffixes segs).filter zdb)).elim
            (lookupConfig cfgs key) (fun v => some (pyReplace v " " "_")) := by
  intro segs
  induction segs with
  | nil => intro cfgs; simp [symlinkLoop, symlinkSuffixes, lastOf, Option.elim]
  | cons a rest ih =>
    intro cfgs
    cases rest with
    | nil => simp [symlinkLoop, symlinkSuffixes, lastOf, Option.elim]
    | cons b t =>
      simp only [symlinkLoop, symlinkSuffixes, List.filter_cons]
      by_cases hz : zdb (joinSlash (b :: t))
      · simp only [hz, if_true]
        rw [ih]
        cases hl : lastOf ((symlinkSuffixes (b :: t)).filter zdb) with
        | none => simp [lastOf, hl, hz, lookup_updateConfig_self]
        | some x => simp [lastOf, hl, hz]
      · have hz' : zdb (joinSlash (b :: t)) = false := by simpa using hz
        simp only [hz', if_false, Bool.false_eq_true]
        rw [ih]

theorem strApp_assoc (a b c : String) : a ++ b ++ c = a ++ (b ++ c) := by
  obtain ⟨a⟩ := a
  obtain ⟨b⟩ := b
  obtain ⟨c⟩ := c
  show String.mk (a ++ b ++ c) = String.mk (a ++ (b ++ c))
  rw [List.append_assoc]

theorem strApp_emp (a : String) : "" ++ a = a := by
  obtain ⟨a⟩ := a
  show String.mk ([] ++ a) = String.mk a
  rw [List.nil_append]

theorem configLines_mem_infix :
    ∀ (cfgs : List (String × String)) (p : String × String), p ∈ cfgs →
      ∃ u w, configLines cfgs = u ++ (p.1 ++ ": " ++ p.2 ++ "\n") ++ w := by
  intro cfgs
  induction cfgs with
  | nil => intro p h; cases h
  | cons q rest ih =>
    intro p h
    rcases List.mem_cons.mp h with h1 | h2
    · refine ⟨"", configLines rest, ?_⟩
      rw [h1, strApp_emp]
      simp [configLines]
    · obtain ⟨u, w, hw⟩ := ih p h2
      refine ⟨q.1 ++ ": " ++ q.2 ++ "\n" ++ u, w, ?_⟩
      simp only [configLines, hw]
      simp only [strApp_assoc]

theorem conflictMessage_mem_infix (cfgs : List (String × String))
    (p : String × String) (hp : p ∈ cfgs) :
    ∃ u w, conflictMessage cfgs = u ++ (p.1 ++ ": " ++ p.2 ++ "\n") ++ w := by
  obtain ⟨u, w, hw⟩ := configLines_mem_infix cfgs p hp
  refine ⟨"Multiple conflicting time zone configurations found:\n" ++ u,
    w ++ "Fix the configuration, or set the time zone in a TZ environment variable.\n", ?_⟩
  unfold conflictMessage
  rw [hw]
  simp only [strApp_assoc]

/-! ## Claims -/

/-- Claim C6: with no TZ override, no platform marker, no config-file
candidate, no symlink-derived candidate, and no raw localtime file at
either fallback path, resolution emits a warning (second component `true`)
and returns the universal-time zone, raising no exception. -/
theorem c6_utc_terminal_fallback (env : Env) (root : String)
    (h0 : _try_tz_from_env env = .ok none)
    (h1 : env.pathExists (osPathJoin root "system/bin/getprop") = false)
    (h2 : scanClockFiles env root (scanPlainFiles env root) = .ok [])
    (h3 : env.pathExists (osPathJoin root "etc/localtime") = false)
    (h4 : env.pathExists (osPathJoin root "usr/local/etc/localtime") = false) :
    _get_localzone env root = .ok (.utc, true) := by
  have hs : symlinkScan env root [] = [] := by
    simp only [symlinkScan, h3, Bool.false_and, Bool.false_eq_true, if_false]
  simp only [_get_localzone, h0, localzone_after_env, h1, Bool.false_eq_true, if_false, h2, hs]
  simp only [fallbackLocaltime, h3, Bool.false_eq_true, if_false, h4]

/-- Witness for C6: the completely empty environment under root `/t`
yields the UTC fallback with the warning flag set. -/
theorem c6_utc_terminal_fallback_witness :
    _get_localzone emptyEnv "/t" = .ok (.utc, true) :=
  c6_utc_terminal_fallback emptyEnv "/t" rfl rfl rfl rfl rfl

/-- Claim C7: with an empty cache, `get_localzone` runs the strategy
chain, stores the result and returns it; with a populated cache it returns
the cached zone for any environment whatsoever (hence without consulting
any strategy); `reload_localzone` re-runs the chain from any cache state,
overwrites the cache and returns the new zone. -/
theorem c7_cache_semantics (env : Env) (tz : TZResult) (w : Bool)
    (h : _get_localzone env "/" = .ok (tz, w)) :
    get_localzone env none = (.ok tz, some tz)
    ∧ (∀ env2 : Env, get_localzone env2 (some tz) = (.ok tz, some tz))
    ∧ (∀ (env2 : Env) (tz2 : TZResult) (w2 : Bool) (c : Option TZResult),
        _get_localzone env2 "/" = .ok (tz2, w2) →
          reload_localzone env2 c = (.ok tz2, some tz2)) := by
  refine ⟨?_, ?_, ?_⟩
  · simp [get_localzone, h]
  · intro env2
    simp [get_localzone]
  · intro env2 tz2 w2 c h2
    simp [reload_localzone, h2]

/-- Witness for C7: a `TZ`-resolving environment populates the cache. -/
theorem c7_cache_semantics_witness :
    get_localzone env7C7 none
      = (.ok (.named "Europe/Amsterdam"), some (.named "Europe/Amsterdam")) :=
  (c7_cache_semantics env7C7 (.named "Europe/Amsterdam") false rfl).1

/-- Claim C9: a readable clock file with a line matching the `ZONE="`
opening pattern but no closing quote is not skipped silently: the failed
search for the closing quote is dereferenced and the resulting
`AttributeError` escapes resolution (only `IOError`/`UnicodeDecodeError`
are caught for scanned config files). -/
theorem c9_unterminated_quote_raises :
    matchClockKey "ZONE" "ZONE=\"Asia/Tokyo\n" = some "Asia/Tokyo\n"
    ∧ _get_localzone env9C9 "/t" = .error .attributeError :=
  ⟨rfl, rfl⟩

/-- Claim C10: if the strategy chain raises, `get_localzone` leaves the
cache empty and `reload_localzone` keeps whatever was cached before, so a
later `get_localzone` with the still-empty cache re-runs the full chain. -/
theorem c10_cache_unchanged_on_error (env : Env) (e : PyError) (c : Option TZResult)
    (h : _get_localzone env "/" = .error e) :
    get_localzone env none = (.error e, none)
    ∧ reload_localzone env c = (.error e, c)
    ∧ (∀ (env2 : Env) (tz2 : TZResult) (w2 : Bool),
        _get_localzone env2 "/" = .ok (tz2, w2) →
          get_localzone env2 none = (.ok tz2, some tz2)) := by
  refine ⟨by simp [get_localzone, h], by simp [reload_localzone, h], ?_⟩
  intro env2 tz2 w2 h2
  simp [get_localzone, h2]

/-- Witness for C10: a conflicting configuration at the default root
raises, and the cache slot stays empty. -/
theorem c10_cache_unchanged_on_error_witness :
    get_localzone env10C10 none
      = (.error (.zoneInfoNotFound (conflictMessage
          [("/etc/timezone", "America/New_York"),
           ("/var/db/zoneinfo", "Europe/London")])), none) :=
  (c10_cache_unchanged_on_error env10C10
    (.zoneInfoNotFound (conflictMessage
      [("/etc/timezone", "America/New_York"),
       ("/var/db/zoneinfo", "Europe/London")])) none rfl).1

/-- Claim C4: whenever reconciliation holds two or more candidates that
are not all identical after synonym folding, resolution raises the
conflict error, whose message contains, for every originating source
path, the line `path: raw-candidate`; no candidate is returned. -/
theorem c4_conflict_error_enumerates (env : Env) (root : String)
    (cfgs1 cfgs : List (String × String))
    (h0 : _try_tz_from_env env = .ok none)
    (h1 : env.pathExists (osPathJoin root "system/bin/getprop") = false)
    (h2 : scanClockFiles env root (scanPlainFiles env root) = .ok cfgs1)
    (h3 : symlinkScan env root cfgs1 = cfgs)
    (h4 : 1 < cfgs.length)
    (h5 : allEqual (cfgs.map (fun p => normalize_tzname p.2)) = false) :
    _get_localzone env root = .error (.zoneInfoNotFound (conflictMessage cfgs))
    ∧ ∀ p ∈ cfgs, ∃ u w, conflictMessage cfgs = u ++ (p.1 ++ ": " ++ p.2 ++ "\n") ++ w := by
  constructor
  · simp only [_get_localzone, h0, localzone_after_env, h1, Bool.false_eq_true, if_false, h2, h3]
    cases cfgs with
    | nil => simp at h4
    | cons first restCfgs =>
      have hr : 0 < restCfgs.length := by
        simpa [Nat.lt_succ_iff] using h4
      simp only [List.map_cons] at h5
      simp [hr, h5]
  · intro p hp
    exact conflictMessage_mem_infix cfgs p hp

/-- Witness for C4: `America/New_York` against `Europe/London` raises the
conflict error listing both paths with both raw values. -/
theorem c4_conflict_error_enumerates_witness :
    _get_localzone env4C4 "/t"
      = .error (.zoneInfoNotFound (conflictMessage
          [("/t/etc/timezone", "America/New_York"),
           ("/t/var/db/zoneinfo", "Europe/London")])) :=
  (c4_conflict_error_enumerates env4C4 "/t"
    [("/t/etc/timezone", "America/New_York"), ("/t/var/db/zoneinfo", "Europe/London")]
    [("/t/etc/timezone", "America/New_York"), ("/t/var/db/zoneinfo", "Europe/London")]
    rfl rfl rfl rfl (by decide) rfl).1

/-- Claim C5: whenever reconciliation holds two or more candidates that
all fold to the same name, resolution succeeds with the zone of the
first-encountered raw, unnormalized candidate (provided it is a database
key and, at the default root, the offset check passes); the folded form
never reaches the output. -/
theorem c5_first_raw_candidate_wins (env : Env) (root : String)
    (cfgs1 rest : List (String × String)) (k v : String)
    (h0 : _try_tz_from_env env = .ok none)
    (h1 : env.pathExists (osPathJoin root "system/bin/getprop") = false)
    (h2 : scanClockFiles env root (scanPlainFiles env root) = .ok cfgs1)
    (h3 : symlinkScan env root cfgs1 = (k, v) :: rest)
    (h4 : rest ≠ [])
    (h5 : allEqual (((k, v) :: rest).map (fun p => normalize_tzname p.2)) = true)
    (h6 : env.zdb v = true)
    (h7 : root = "/" → env.offsetOk v = true) :
    _get_localzone env root = .ok (.named v, false) := by
  simp only [_get_localzone, h0, localzone_after_env, h1, Bool.false_eq_true, if_false, h2, h3]
  simp only [List.map_cons] at h5
  by_cases hr : root = "/"
  · have ho := h7 hr
    simp [h5, h6, ho, hr]
  · simp [h5, h6, hr]

/-- Witness for C5: `Etc/UTC` (from `etc/timezone`) and `GMT` (from
`var/db/zoneinfo`) fold to the same name and the answer is the zone of
the raw first candidate `Etc/UTC`. -/
theorem c5_first_raw_candidate_wins_witness :
    _get_localzone env5C5 "/t" = .ok (.named "Etc/UTC", false) :=
  c5_first_raw_candidate_wins env5C5 "/t"
    [("/t/etc/timezone", "Etc/UTC"), ("/t/var/db/zoneinfo", "GMT")]
    [("/t/var/db/zoneinfo", "GMT")] "/t/etc/timezone" "Etc/UTC"
    rfl rfl rfl rfl (by decide) rfl rfl (fun _ => rfl)

/-- Claim C8: a readable, not-entirely-blank plain-name config file
contributes as candidate the last line that is still non-empty after
cutting at the first space and then at the first `#`, with remaining
spaces turned into underscores; lines that become empty are skipped, and
later lines overwrite earlier ones. -/
theorem c8_plain_file_last_line_wins (env : Env) (root configfile data : String)
    (cfgs : List (String × String))
    (hread : env.textFile (osPathJoin root configfile) = some data)
    (hnb : pyStrip data ≠ "") :
    lookupConfig (scanPlainFile env root cfgs configfile) (osPathJoin root configfile)
      = (lastOf (((splitlines data).map cutLine).filter (fun s => s != ""))).elim
          (lookupConfig cfgs (osPathJoin root configfile))
          (fun v => some (pyReplace v " " "_")) := by
  simp only [scanPlainFile, hread]
  rw [if_neg hnb]
  exact lookup_foldl_scanPlainLine (osPathJoin root configfile) (splitlines data) cfgs

/-- Witness for C8: a host annotation, a comment line and a final plain
line; the last non-empty processed line `America/New_York` wins. -/
theorem c8_plain_file_last_line_wins_witness :
    pyStrip c8data ≠ ""
    ∧ lookupConfig (scanPlainFile env8C8 "/t" [] "etc/timezone") (osPathJoin "/t" "etc/timezone")
        = some "America/New_York" :=
  ⟨by decide,
   (c8_plain_file_last_line_wins env8C8 "/t" "etc/timezone" c8data [] rfl (by decide)).trans
     (by rfl)⟩

/-- Claim C1, counterexample: `TZ` holds `Foo/Bar` (non-empty, not an
absolute existing path, not a database key), yet resolution does NOT fail
with the NotFound error — it falls through and succeeds from
`etc/timezone`, because `_try_tz_from_env` catches the error. -/
theorem c1_env_override_falls_through_cex :
    env1C1.tz = some "Foo/Bar"
    ∧ strStartsWith (stripColon "Foo/Bar") "/" = false
    ∧ env1C1.zdb (stripColon "Foo/Bar") = false
    ∧ _get_localzone env1C1 "/t" = .ok (.named "America/New_York", false) :=
  ⟨rfl, rfl, rfl, rfl⟩

/-- Claim C1 as amended: for every state where `TZ` is a non-empty string
that is neither an absolute existing file path nor a database key,
`_tz_from_env` raises the descriptive NotFound error, but
`_try_tz_from_env` catches it and yields nothing, so resolution falls
through to the platform probe / config scanner / symlink fallback. -/
theorem c1_env_override_swallowed (env : Env) (root tzenv : String)
    (htz : env.tz = some tzenv) (hne : tzenv ≠ "")
    (hfile : (strStartsWith (stripColon tzenv) "/" && env.pathExists (stripColon tzenv)) = false)
    (hdb : env.zdb (stripColon tzenv) = false) :
    _tz_from_env env tzenv = .error (.zoneInfoNotFound notSupportedMsg)
    ∧ _try_tz_from_env env = .ok none
    ∧ _get_localzone env root = localzone_after_env env root := by
  have herr : _tz_from_env env tzenv = .error (.zoneInfoNotFound notSupportedMsg) := by
    unfold _tz_from_env
    rw [if_neg hne]
    simp [hfile, hdb]
  have hopt : _try_tz_from_env env = .ok none := by
    simp [_try_tz_from_env, htz, hne, herr]
  exact ⟨herr, hopt, by simp [_get_localzone, hopt]⟩

/-- Witness for amended C1: at `env1C1` the override is swallowed and
resolution proceeds with the later strategies. -/
theorem c1_env_override_swallowed_witness :
    _try_tz_from_env env1C1 = .ok none
    ∧ _get_localzone env1C1 "/t" = localzone_after_env env1C1 "/t" :=
  ⟨(c1_env_override_swallowed env1C1 "/t" "Foo/Bar" rfl (by decide) rfl rfl).2.1,
   (c1_env_override_swallowed env1C1 "/t" "Foo/Bar" rfl (by decide) rfl rfl).2.2⟩

/-- Claim C2, counterexample: the config-file scanner produced the
candidate `America/New_York`, yet the symlink-derived candidate does
participate in reconciliation: resolution raises a conflict naming the
symlink's real path instead of succeeding with the scanner's candidate. -/
theorem c2_symlink_participates_cex :
    scanClockFiles env2C2 "/t" (scanPlainFiles env2C2 "/t")
        = .ok [("/t/etc/timezone", "America/New_York")]
    ∧ _get_localzone env2C2 "/t"
        = .error (.zoneInfoNotFound (conflictMessage
            [("/t/etc/timezone", "America/New_York"),
             ("/usr/share/zoneinfo/Etc/GMT", "GMT")])) :=
  ⟨rfl, rfl⟩

/-- Claim C2 as amended: when the config-file scanner has produced at
least one candidate, the raw binary `localtime` load and the UTC fallback
are never used (the result is either a named zone or an error); the
symlink-derived candidates, however, do participate in reconciliation
(see the counterexample). -/
theorem c2_no_binary_fallback_when_candidates (env : Env) (root : String)
    (cfgs1 : List (String × String))
    (h0 : _try_tz_from_env env = .ok none)
    (h1 : env.pathExists (osPathJoin root "system/bin/getprop") = false)
    (h2 : scanClockFiles env root (scanPlainFiles env root) = .ok cfgs1)
    (h3 : cfgs1 ≠ []) :
    ∀ (p : String) (b : Bool),
      _get_localzone env root ≠ .ok (.fromFile p, b)
      ∧ _get_localzone env root ≠ .ok (.utc, b) := by
  intro p b
  have hne := symlinkScan_ne_nil env root cfgs1 h3
  simp only [_get_localzone, h0, localzone_after_env, h1, Bool.false_eq_true, if_false, h2]
  cases hsc : symlinkScan env root cfgs1 with
  | nil => exact absurd hsc hne
  | cons first restCfgs =>
    refine ⟨?_, ?_⟩ <;>
      · split
        · simp_all
        · split_ifs <;> simp

/-- Witness for amended C2: at `env2C2` the UTC fallback is not the
outcome even though the raw binary path also does not exist. -/
theorem c2_no_binary_fallback_witness :
    _get_localzone env2C2 "/t" ≠ .ok (.utc, true) :=
  (c2_no_binary_fallback_when_candidates env2C2 "/t"
    [("/t/etc/timezone", "America/New_York")] rfl rfl rfl (by decide) "" true).2

/-- Claim C3, counterexample: the real path `/usr/share/zoneinfo/Etc/GMT`
has both `Etc/GMT` and `GMT` as database-resolvable trailing suffixes; the
candidate recorded is `GMT`, not the longest resolving suffix `Etc/GMT`. -/
theorem c3_longest_suffix_cex :
    env3C3.zdb "Etc/GMT" = true
    ∧ env3C3.zdb "GMT" = true
    ∧ lookupConfig (symlinkScan env3C3 "/t" []) "/usr/share/zoneinfo/Etc/GMT" = some "GMT"
    ∧ ("GMT" : String) ≠ "Etc/GMT" :=
  ⟨rfl, rfl, rfl, by decide⟩

/-- Claim C3 as amended: for a symlinked `etc/localtime`, the candidate
recorded under the resolved real path is the LAST suffix in the
longest-to-shortest scan that the database resolves (each success
overwrites the previous one, so the shortest resolving suffix wins);
suffixes that fail to resolve are tolerated and contribute nothing. -/
theorem c3_shortest_suffix_wins (env : Env) (root : String)
    (cfgs : List (String × String))
    (hex : env.pathExists (osPathJoin root "etc/localtime") = true)
    (hlink : env.isLink (osPathJoin root "etc/localtime") = true) :
    lookupConfig (symlinkScan env root cfgs) (env.realPath (osPathJoin root "etc/localtime"))
      = (lastOf ((symlinkSuffixes
            ((splitOnChar '/' (env.realPath (osPathJoin root "etc/localtime")).data).map
              String.mk)).filter env.zdb)).elim
          (lookupConfig cfgs (env.realPath (osPathJoin root "etc/localtime")))
          (fun v => some (pyReplace v " " "_")) := by
  simp only [symlinkScan, hex, hlink, Bool.and_self, if_true]
  exact lookup_symlinkLoop env.zdb _ _ cfgs

/-- Witness for amended C3: at `env3C3` the last resolving suffix is
`GMT` and that is the recorded candidate. -/
theorem c3_shortest_suffix_wins_witness :
    env3C3.pathExists (osPathJoin "/t" "etc/localtime") = true
    ∧ lookupConfig (symlinkScan env3C3 "/t" [])
        (env3C3.realPath (osPathJoin "/t" "etc/localtime")) = some "GMT" :=
  ⟨rfl, (c3_shortest_suffix_wins env3C3 "/t" [] rfl rfl).trans (by rfl)⟩
